import Mathlib

/-!
Verification of the gateway-reader core of the enphase_gateway integration.

The Python sources are shallowly embedded: pure helper functions become Lean
functions, stateful objects become explicit records with state-passing
methods, machine floats become exact rationals, the external libraries
(regex engine, jsonpath engine, JSON and XML parsers, HTTP client) appear as
explicit parameters or tagged constructors, and calls to the wall clock are
made explicit as a `now` argument.
-/

/-- Model of a Python value as it flows through the descriptor engine:
the payloads are JSON-like data, jsonpath results are lists of such values,
and probe results are scalars, lists or None. -/
inductive PyVal where
  | none
  | bool (b : Bool)
  | num (q : ℚ)
  | str (s : String)
  | list (xs : List PyVal)
  | dict (xs : List (String × PyVal))

/-- Python truthiness, as used by `if not x` and `x or y` in the sources:
None, False, zero, the empty string and empty collections are falsy. -/
def PyVal.truthy : PyVal → Bool
  | .none => false
  | .bool b => b
  | .num q => decide (q ≠ 0)
  | .str s => !s.isEmpty
  | .list xs => !xs.isEmpty
  | .dict xs => !xs.isEmpty

/-- Digit-string value: Nat denoted by a nonempty list of decimal digits.
Returns Option.none on a non-digit, mirroring a float() ValueError. -/
def digitsVal (cs : List Char) : Option ℕ :=
  if cs.isEmpty then Option.none
  else cs.foldl
    (fun acc c =>
      acc.bind (fun n => if c.isDigit then some (10 * n + (c.toNat - 48)) else Option.none))
    (some 0)

/-- Embedding of Python float() restricted to the strings the legacy regex
captures in its first group (a digit run, optionally with one decimal point),
read exactly as a rational number. -/
def pyFloat (s : String) : Option ℚ :=
  let cs := s.toList
  let intPart := cs.takeWhile (· ≠ '.')
  let rest := cs.dropWhile (· ≠ '.')
  match rest with
  | [] => (digitsVal intPart).map (fun a => (a : ℚ))
  | _ :: fracPart =>
    if fracPart.contains '.' then Option.none
    else
      (digitsVal intPart).bind fun a =>
        (digitsVal fracPart).map fun b => (a : ℚ) + (b : ℚ) / (10 ^ fracPart.length)

namespace RegexDescriptor

/-- Embedding of RegexDescriptor.resolve from descriptors.py. The external
regex engine (re.search with two capture groups) is summarised by
`matchGroups`: `some (g1, g2)` holds the numeric capture and the unit capture
when the search matched, `Option.none` when it did not. The unit test in the
source is over the sets containing kW/kWh and mW/MWh respectively; the else
branch keeps the bare value. -/
def resolve (matchGroups : Option (String × String)) : Option ℚ :=
  match matchGroups with
  | Option.none => Option.none
  | some (g1, g2) =>
    if g2 = "kW" ∨ g2 = "kWh" then (pyFloat g1).map (· * 1000)
    else if g2 = "mW" ∨ g2 = "MWh" then (pyFloat g1).map (· * 1000000)
    else pyFloat g1

end RegexDescriptor

/-- The unit alternatives of the four legacy production regexes in
EnvoyLegacy (gateway.py): the second capture group is always one of these,
so a capture equal to mW is impossible while MW is producible. -/
def legacyRegexUnits : List String := ["W", "kW", "MW", "Wh", "kWh", "MWh"]

/-- C1. The spec claims units MW and MWh both scale by 1000000. The code
(descriptors.py, RegexDescriptor.resolve) tests the unit against the set
containing mW and MWh: the producible capture MW falls through to the
times-one branch, so a production reading of 6.63 MW resolves to 6.63
instead of the 6630000 the claim requires. The kW/kWh, MWh, bare-unit and
no-match behaviours agree with the claim. -/
theorem c1_regex_unit_conversion_mw_bug :
    RegexDescriptor.resolve (some ("6.63", "kW")) = some 6630
      ∧ RegexDescriptor.resolve (some ("133", "MWh")) = some 133000000
      ∧ RegexDescriptor.resolve (some ("53.6", "Wh")) = some (268 / 5)
      ∧ RegexDescriptor.resolve Option.none = Option.none
      ∧ RegexDescriptor.resolve (some ("6.63", "MW")) = some (663 / 100)
      ∧ (663 / 100 : ℚ) ≠ 6630000 ∧ "MW" ∈ legacyRegexUnits := by
  refine ⟨?_, ?_, ?_, rfl, ?_, by norm_num, by decide⟩ <;>
    · simp +decide [RegexDescriptor.resolve, pyFloat, digitsVal]
      norm_num

/-! ## Endpoint registry (gateway_reader/endpoint.py) -/

/-- Embedding of the GatewayEndpoint object: the identifying endpoint path
(named `name` in endpoint.py, read back as `path` by gateway.py and the test
suite), the caching interval in seconds and the optional last-fetch
timestamp. Timestamps and the cache interval are exact rationals standing
for the Python floats and ints. -/
structure GatewayEndpoint where
  path : String
  cache : ℚ
  last_fetch : Option ℚ

/-- Python falsiness of an optional timestamp, as tested by `if not x`:
true for None and for the number zero. -/
def pyFalsyTime : Option ℚ → Bool
  | Option.none => true
  | some t => decide (t = 0)

namespace GatewayEndpoint

/-- Constructor of GatewayEndpoint: the last-fetch timestamp starts out as
None. -/
def init (path : String) (cache : ℚ) : GatewayEndpoint :=
  { path := path, cache := cache, last_fetch := Option.none }

/-- Embedding of GatewayEndpoint.update_required with the call to
time.time() made explicit as `now`. An update is required when the endpoint
was never fetched (Python falsiness also covers a zero timestamp) or when
last_fetch + cache has passed, inclusively. -/
def update_required (e : GatewayEndpoint) (now : ℚ) : Bool :=
  if pyFalsyTime e.last_fetch then true
  else if e.last_fetch.getD 0 + e.cache ≤ now then true
  else false

/-- Embedding of GatewayEndpoint.success (the markFetched operation of the
spec): stores the given timestamp, substituting time.time() (= `now`) when
the argument is absent or falsy. -/
def success (e : GatewayEndpoint) (timestamp : Option ℚ) (now : ℚ) : GatewayEndpoint :=
  if pyFalsyTime timestamp then { e with last_fetch := some now }
  else { e with last_fetch := timestamp }

end GatewayEndpoint

/-! ## Required-endpoint merging (gateway.py, BaseGateway.required_endpoints) -/

namespace BaseGateway

/-- Embedding of the `update_endpoints` closure inside
BaseGateway.required_endpoints. The Python dict keyed by endpoint path is an
insertion-ordered association list of endpoints: a new path is inserted, a
colliding registration lowers the stored cache interval when its own is
strictly smaller. -/
def update_endpoints (endpoints : List GatewayEndpoint) (endpoint : GatewayEndpoint) :
    List GatewayEndpoint :=
  match endpoints.find? (fun x => x.path == endpoint.path) with
  | Option.none => endpoints ++ [endpoint]
  | some found =>
    if endpoint.cache < found.cache then
      endpoints.map (fun x =>
        if x.path == endpoint.path then { x with cache := endpoint.cache } else x)
    else endpoints

/-- The required-endpoint computation of BaseGateway.required_endpoints in
the exploratory phase: every registered property endpoint is folded through
`update_endpoints` into the path-keyed registry. -/
def required_endpoints_merge (registered : List GatewayEndpoint) : List GatewayEndpoint :=
  registered.foldl update_endpoints []

end BaseGateway

/-- C2 counterexample. The claim asserts that update_required becomes false
immediately after markFetched(now) for every cacheSeconds, including zero.
With cacheSeconds = 0 the code compares last_fetch + cache <= now
inclusively, so right after a fetch at time 5 the endpoint is already
update-required again. -/
theorem c2_counterexample_zero_cache :
    ((GatewayEndpoint.init "production.json" 0).success Option.none 5).update_required 5 = true := by
  simp [GatewayEndpoint.init, GatewayEndpoint.success, GatewayEndpoint.update_required,
    pyFalsyTime]

/-- C2 amended. For states whose last-fetch timestamp is absent or positive
(the only states the constructor and success can produce when the clock is
positive), update_required(now) is true iff last_fetch is None or
now is at least last_fetch + cache; it is therefore true right after
construction, and right after markFetched at time fetchTime it is true for a
later now iff fetchTime + cache has been reached; evaluated at the fetch
instant itself it is true iff cache is at most zero (so for cache = 0 it
does not become false, unlike the original claim). -/
theorem c2_update_required_amended
    (e : GatewayEndpoint) (now fetchTime : ℚ)
    (hlf : ∀ t, e.last_fetch = some t → 0 < t) (hft : 0 < fetchTime) :
    (e.update_required now = true ↔
        e.last_fetch = Option.none ∨ ∃ t, e.last_fetch = some t ∧ t + e.cache ≤ now)
      ∧ ((e.success Option.none fetchTime).update_required now = true ↔
          fetchTime + e.cache ≤ now)
      ∧ ((e.success Option.none fetchTime).update_required fetchTime = true ↔ e.cache ≤ 0) := by
  refine ⟨?_, ?_, ?_⟩
  · cases h : e.last_fetch with
    | none => simp [GatewayEndpoint.update_required, pyFalsyTime, h]
    | some t =>
      have ht : 0 < t := hlf t h
      simp [GatewayEndpoint.update_required, pyFalsyTime, h, ht.ne']
  · simp [GatewayEndpoint.success, GatewayEndpoint.update_required, pyFalsyTime, hft.ne']
  · simp [GatewayEndpoint.success, GatewayEndpoint.update_required, pyFalsyTime, hft.ne']

theorem c2_update_required_amended_witness :
    (0 : ℚ) < 5 ∧
      (((GatewayEndpoint.init "production.json" 7).success Option.none 5).update_required 20 = true
        ↔ (5 : ℚ) + (GatewayEndpoint.init "production.json" 7).cache ≤ 20) :=
  ⟨by norm_num,
    (c2_update_required_amended (GatewayEndpoint.init "production.json" 7) 20 5
      (fun t ht => by simp [GatewayEndpoint.init] at ht) (by norm_num)).2.1⟩

/-- C3. Two endpoint registrations with the same path and different cache
intervals merge into a single required endpoint whose cache interval is the
minimum of the two: the second registration only lowers the stored value
when it is strictly smaller. -/
theorem c3_same_path_merges_to_min_cache
    (p : String) (c1 c2 : ℚ) (lf1 lf2 : Option ℚ) (hne : c1 ≠ c2) :
    BaseGateway.required_endpoints_merge [⟨p, c1, lf1⟩, ⟨p, c2, lf2⟩]
      = [⟨p, min c1 c2, lf1⟩] := by
  rcases hne.lt_or_lt with h | h
  · simp [BaseGateway.required_endpoints_merge, BaseGateway.update_endpoints, List.find?,
      h.asymm, min_eq_left h.le]
  · simp [BaseGateway.required_endpoints_merge, BaseGateway.update_endpoints, List.find?,
      h, min_eq_right h.le]

theorem c3_same_path_merges_to_min_cache_witness :
    (5 : ℚ) ≠ 3 ∧
      BaseGateway.required_endpoints_merge
          [⟨"production.json", 5, Option.none⟩, ⟨"production.json", 3, Option.none⟩]
        = [⟨"production.json", min 5 3, Option.none⟩] :=
  ⟨by norm_num,
    c3_same_path_merges_to_min_cache "production.json" 5 3 Option.none Option.none
      (by norm_num)⟩

/-! ## Token authentication (gateway_reader/auth.py, EnphaseTokenAuth) -/

/-- Python truthiness of an optional string argument, as tested by the
constructor of EnphaseTokenAuth: None and the empty string are falsy. -/
def pyTruthyStr : Option String → Bool
  | Option.none => false
  | some s => !s.isEmpty

/-- The configuration error raised by the constructor of EnphaseTokenAuth
when neither complete Enlighten credentials nor a raw token were given
(TokenAuthConfigError in exceptions.py, the ConfigurationError of the
spec). -/
inductive TokenAuthConfigError where
  | invalidArgumentCombination

/-- State stored by a successfully constructed EnphaseTokenAuth, restricted
to the fields the constructor decides on. -/
structure EnphaseTokenAuthState where
  enlighten_credentials : Bool
  auto_renewal : Bool
  token : Option String

namespace EnphaseTokenAuth

/-- Embedding of the argument validation of EnphaseTokenAuth init. The
constructor only stores fields and raises: it performs no network call in
any branch (the embedding is a pure function). Complete credentials mean a
truthy username, password and gateway serial number; failing that, a falsy
raw token is a fatal configuration error, and a truthy raw token yields a
token-only instance with auto renewal forced off. -/
def init (enlighten_username enlighten_password gateway_serial_num token_raw : Option String)
    (auto_renewal : Bool) : Except TokenAuthConfigError EnphaseTokenAuthState :=
  if pyTruthyStr enlighten_username && pyTruthyStr enlighten_password
      && pyTruthyStr gateway_serial_num then
    Except.ok { enlighten_credentials := true, auto_renewal := auto_renewal, token := token_raw }
  else if !pyTruthyStr token_raw then
    Except.error TokenAuthConfigError.invalidArgumentCombination
  else
    Except.ok { enlighten_credentials := false, auto_renewal := false, token := token_raw }

/-- The expiry claim embedded in a web token, as read on demand by
_decode_token: seconds since the epoch. -/
structure TokenClaims where
  exp : ℚ

/-- Embedding of the expiration_date property: decodes the token claims on
demand and returns the embedded expiry instant. -/
def expiration_date (claims : TokenClaims) : ℚ := claims.exp

/-- Embedding of the is_stale property with datetime.now() made explicit:
not stale while now is at most expiration minus the stale threshold, stale
strictly afterwards. Nothing is stored; the value is recomputed from the
token claims at each call. -/
def is_stale (claims : TokenClaims) (stale_token_threshold now : ℚ) : Bool :=
  let exp_time := expiration_date claims - stale_token_threshold
  if now ≤ exp_time then false else true

/-- Default stale threshold of the constructor: timedelta(days=30) in
seconds. -/
def default_stale_token_threshold : ℚ := 30 * 86400

end EnphaseTokenAuth

/-- C6. Constructing EnphaseTokenAuth raises TokenAuthConfigError exactly
when the Enlighten credentials are incomplete and no raw token was given;
every other argument combination constructs successfully. The constructor is
a pure function of its arguments, so no network call happens in either
case. -/
theorem c6_token_auth_config_error_iff
    (u p s t : Option String) (ar : Bool) :
    (EnphaseTokenAuth.init u p s t ar
        = Except.error TokenAuthConfigError.invalidArgumentCombination
      ↔ ¬(pyTruthyStr u = true ∧ pyTruthyStr p = true ∧ pyTruthyStr s = true)
          ∧ pyTruthyStr t = false)
      ∧ ((EnphaseTokenAuth.init u p s t ar).isOk
          = ((pyTruthyStr u && pyTruthyStr p && pyTruthyStr s) || pyTruthyStr t)) := by
  unfold EnphaseTokenAuth.init
  cases hu : pyTruthyStr u <;> cases hp : pyTruthyStr p <;> cases hs : pyTruthyStr s <;>
    cases ht : pyTruthyStr t <;> simp [Except.isOk, Except.toBool]

/-- C7 counterexample. The claim says a token is stale as soon as
now >= expiration - staleThreshold. At the boundary instant
now = expiration - staleThreshold (70 = 100 - 30) the code still reports the
token as fresh, because its comparison is strict. -/
theorem c7_counterexample_boundary :
    EnphaseTokenAuth.is_stale ⟨100⟩ 30 70 = false ∧ (70 : ℚ) ≥ 100 - 30 := by
  constructor
  · norm_num [EnphaseTokenAuth.is_stale, EnphaseTokenAuth.expiration_date]
  · norm_num

/-- C7 amended. Staleness is derived on demand from the expiry claim
embedded in the token: the token is stale iff now is strictly later than
expiration - staleThreshold (the original claim had the non-strict
comparison). -/
theorem c7_is_stale_iff_strict (claims : EnphaseTokenAuth.TokenClaims) (threshold now : ℚ) :
    EnphaseTokenAuth.is_stale claims threshold now = true
      ↔ EnphaseTokenAuth.expiration_date claims - threshold < now := by
  simp [EnphaseTokenAuth.is_stale]

/-! ## Path extractor (descriptors.py, JsonDescriptor.resolve) -/

namespace JsonDescriptor

/-- Embedding of the classmethod JsonDescriptor.resolve. The external
jsonpath library call is passed in as `jsonpathEval`; the library returns
False on no match (here Option.none) and the list of matched values
otherwise. An empty expression short-circuits to the whole payload before
the library is consulted; a one-element match list collapses to its only
element; any other list is returned as a Python list value. The `default`
argument of the source defaults to None at every call site that omits it. -/
def resolve (jsonpathEval : String → PyVal → Option (List PyVal))
    (path : String) (data : PyVal) (default : PyVal) : PyVal :=
  if path = "" then data
  else
    match jsonpathEval path data with
    | Option.none => default
    | some result =>
      match result with
      | [v] => v
      | _ => PyVal.list result

end JsonDescriptor

/-- C9. For every path-extractor evaluation: the empty expression returns
the whole payload unchanged; an expression the jsonpath engine reports as
matching nothing resolves to the caller-supplied default (None when the call
site configures none); a one-element match collapses to the scalar element
rather than a one-element collection. -/
theorem c9_json_resolve_spec
    (jsonpathEval : String → PyVal → Option (List PyVal))
    (path : String) (data default v : PyVal) :
    (JsonDescriptor.resolve jsonpathEval "" data default = data)
      ∧ (path ≠ "" → jsonpathEval path data = Option.none →
          JsonDescriptor.resolve jsonpathEval path data default = default)
      ∧ (path ≠ "" → jsonpathEval path data = some [v] →
          JsonDescriptor.resolve jsonpathEval path data default = v) := by
  refine ⟨by simp [JsonDescriptor.resolve], ?_, ?_⟩
  · intro hp he
    simp [JsonDescriptor.resolve, hp, he]
  · intro hp he
    simp [JsonDescriptor.resolve, hp, he]

theorem c9_json_resolve_spec_witness :
    ("inverters" : String) ≠ ""
      ∧ (fun (_ : String) (_ : PyVal) => some [PyVal.num 7]) "inverters" PyVal.none
          = some [PyVal.num 7]
      ∧ JsonDescriptor.resolve (fun _ _ => some [PyVal.num 7]) "inverters" PyVal.none PyVal.none
          = PyVal.num 7 :=
  ⟨by decide, rfl,
    (c9_json_resolve_spec (fun _ _ => some [PyVal.num 7]) "inverters" PyVal.none PyVal.none
        (PyVal.num 7)).2.2 (by decide) rfl⟩

/-! ## Raw response store (gateway.py, BaseGateway.set_endpoint_data) -/

/-- Result of parsing a response body, tagged with the parser that
set_endpoint_data dispatched to: response.json() for application/json,
xmltodict.parse for the XML content types, response.text otherwise. The
external parsers are kept abstract; the tag records which one ran on the raw
body. -/
inductive ParsedPayload where
  | jsonData (body : String)
  | xmlData (body : String)
  | textData (body : String)

/-- The slice of an httpx.Response that set_endpoint_data consumes: the
status code, the optional content-type header and the body. -/
structure HttpResponse where
  status_code : ℕ
  content_type : Option String
  body : String

/-- Assignment into the Python dict self.data keyed by endpoint path:
replaces the payload of an existing key in place, appends a new key at the
end. -/
def storeSet (store : List (String × ParsedPayload)) (key : String) (val : ParsedPayload) :
    List (String × ParsedPayload) :=
  if store.any (fun kv => kv.1 == key) then
    store.map (fun kv => if kv.1 == key then (key, val) else kv)
  else store ++ [(key, val)]

/-- Lookup in the raw response store. -/
def storeGet (store : List (String × ParsedPayload)) (key : String) : Option ParsedPayload :=
  (store.find? (fun kv => kv.1 == key)).map (fun kv => kv.2)

namespace BaseGateway

/-- Embedding of BaseGateway.set_endpoint_data: a response with status code
400 or above returns before touching self.data; otherwise the body is
parsed according to the content-type header (absent header defaults to
application/json; the text/html branch and the final fallback both store the
raw text) and stored under the endpoint path. -/
def set_endpoint_data (store : List (String × ParsedPayload)) (endpoint : GatewayEndpoint)
    (response : HttpResponse) : List (String × ParsedPayload) :=
  if 400 ≤ response.status_code then store
  else
    let content_type := response.content_type.getD "application/json"
    if content_type = "application/json" then
      storeSet store endpoint.path (ParsedPayload.jsonData response.body)
    else if content_type = "text/xml" ∨ content_type = "application/xml" then
      storeSet store endpoint.path (ParsedPayload.xmlData response.body)
    else if content_type = "text/html" then
      storeSet store endpoint.path (ParsedPayload.textData response.body)
    else
      storeSet store endpoint.path (ParsedPayload.textData response.body)

end BaseGateway

/-- Helper: rewriting an existing key through the map branch of storeSet
makes the key resolve to the new value. -/
theorem find_setmap_self (k : String) (v : ParsedPayload) (s : List (String × ParsedPayload))
    (h : s.any (fun kv => kv.1 == k) = true) :
    (s.map (fun kv => if kv.1 == k then (k, v) else kv)).find? (fun kv => kv.1 == k)
      = some (k, v) := by
  induction s with
  | nil => simp at h
  | cons kv rest ih =>
    simp only [List.map_cons]
    by_cases hk : kv.1 = k
    · have hf : (if (kv.1 == k) = true then (k, v) else kv) = (k, v) := by simp [hk]
      rw [hf, List.find?_cons_of_pos _ (by simp)]
    · have hf : (if (kv.1 == k) = true then (k, v) else kv) = kv := by simp [hk]
      rw [hf, List.find?_cons_of_neg _ (by simp [hk])]
      apply ih
      simp only [List.any_cons, Bool.or_eq_true, beq_iff_eq] at h
      rcases h with h | h
      · exact absurd h hk
      · simpa using h

/-- Helper: the map branch of storeSet does not disturb lookups of a
different key. -/
theorem find_setmap_other (k k' : String) (v : ParsedPayload)
    (hne : k' ≠ k) (s : List (String × ParsedPayload)) :
    (s.map (fun kv => if kv.1 == k then (k, v) else kv)).find? (fun kv => kv.1 == k')
      = s.find? (fun kv => kv.1 == k') := by
  induction s with
  | nil => simp
  | cons kv rest ih =>
    simp only [List.map_cons]
    by_cases hk : kv.1 = k
    · have hf : (if (kv.1 == k) = true then (k, v) else kv) = (k, v) := by simp [hk]
      have hk' : ¬kv.1 = k' := fun hh => hne (by rw [← hh, hk])
      rw [hf, List.find?_cons_of_neg _ (by simp [Ne.symm hne]),
        List.find?_cons_of_neg _ (by simp [hk'])]
      exact ih
    · have hf : (if (kv.1 == k) = true then (k, v) else kv) = kv := by simp [hk]
      by_cases hk' : kv.1 = k'
      · rw [hf, List.find?_cons_of_pos _ (by simp [hk']),
          List.find?_cons_of_pos _ (by simp [hk'])]
      · rw [hf, List.find?_cons_of_neg _ (by simp [hk']),
          List.find?_cons_of_neg _ (by simp [hk'])]
        exact ih

/-- Helper: appending a fresh key at the end of the store makes the key
resolve to the appended value when no earlier entry carries it. -/
theorem find_append_self (k : String) (v : ParsedPayload) (s : List (String × ParsedPayload))
    (h : s.any (fun kv => kv.1 == k) = false) :
    (s ++ [(k, v)]).find? (fun kv => kv.1 == k) = some (k, v) := by
  induction s with
  | nil => rw [List.nil_append, List.find?_cons_of_pos _ (by simp)]
  | cons kv rest ih =>
    simp only [List.any_cons, Bool.or_eq_false_iff] at h
    have hk : ¬kv.1 = k := by simpa using h.1
    rw [List.cons_append, List.find?_cons_of_neg _ (by simp [hk])]
    exact ih h.2

/-- Helper: appending an entry for key k does not disturb lookups of a
different key. -/
theorem find_append_other (k k' : String) (v : ParsedPayload)
    (hne : k' ≠ k) (s : List (String × ParsedPayload)) :
    (s ++ [(k, v)]).find? (fun kv => kv.1 == k') = s.find? (fun kv => kv.1 == k') := by
  induction s with
  | nil =>
    rw [List.nil_append, List.find?_cons_of_neg _ (by simp [Ne.symm hne]), List.find?_nil]
  | cons kv rest ih =>
    by_cases hk' : kv.1 = k'
    · rw [List.cons_append, List.find?_cons_of_pos _ (by simp [hk']),
        List.find?_cons_of_pos _ (by simp [hk'])]
    · rw [List.cons_append, List.find?_cons_of_neg _ (by simp [hk']),
        List.find?_cons_of_neg _ (by simp [hk'])]
      exact ih

/-- Dict assignment stores the value under its key. -/
theorem storeGet_storeSet_self (s : List (String × ParsedPayload)) (k : String)
    (v : ParsedPayload) : storeGet (storeSet s k v) k = some v := by
  by_cases h : s.any (fun kv => kv.1 == k) = true
  · unfold storeGet storeSet
    rw [if_pos h, find_setmap_self k v s h]
    rfl
  · unfold storeGet storeSet
    rw [if_neg h, find_append_self k v s (Bool.eq_false_iff.mpr h)]
    rfl

/-- Dict assignment leaves every other key unchanged. -/
theorem storeGet_storeSet_other (s : List (String × ParsedPayload)) (k k' : String)
    (v : ParsedPayload) (hne : k' ≠ k) : storeGet (storeSet s k v) k' = storeGet s k' := by
  by_cases h : s.any (fun kv => kv.1 == k) = true
  · unfold storeGet storeSet
    rw [if_pos h, find_setmap_other k k' v hne s]
  · unfold storeGet storeSet
    rw [if_neg h, find_append_other k k' v hne s]

/-- C8. A response with HTTP status 400 or above leaves the raw response
store untouched, keeping any previous payload for the endpoint path; a
successful response overwrites the payload stored under the endpoint path,
leaving every other path alone, with the body parsed as JSON under the
application/json content type (also when the header is absent), as an XML
tree under the XML content types, and kept as raw text for any other
content type. -/
theorem c8_set_endpoint_data_spec
    (store : List (String × ParsedPayload)) (endpoint : GatewayEndpoint)
    (response : HttpResponse) :
    (400 ≤ response.status_code →
        BaseGateway.set_endpoint_data store endpoint response = store)
      ∧ (response.status_code < 400 →
          (∀ key, key ≠ endpoint.path →
            storeGet (BaseGateway.set_endpoint_data store endpoint response) key
              = storeGet store key)
          ∧ ((response.content_type = some "application/json"
                ∨ response.content_type = Option.none) →
              storeGet (BaseGateway.set_endpoint_data store endpoint response) endpoint.path
                = some (ParsedPayload.jsonData response.body))
          ∧ ((response.content_type = some "text/xml"
                ∨ response.content_type = some "application/xml") →
              storeGet (BaseGateway.set_endpoint_data store endpoint response) endpoint.path
                = some (ParsedPayload.xmlData response.body))
          ∧ (∀ c, response.content_type = some c →
              c ≠ "application/json" → c ≠ "text/xml" → c ≠ "application/xml" →
              storeGet (BaseGateway.set_endpoint_data store endpoint response) endpoint.path
                = some (ParsedPayload.textData response.body))) := by
  refine ⟨fun h => by simp [BaseGateway.set_endpoint_data, h], fun h => ⟨?_, ?_, ?_, ?_⟩⟩
  · intro key hkey
    rcases hct : response.content_type with _ | c
    · simpa [BaseGateway.set_endpoint_data, Nat.not_le.mpr h, hct] using
        storeGet_storeSet_other store endpoint.path key
          (ParsedPayload.jsonData response.body) hkey
    · by_cases h1 : c = "application/json"
      · simpa [BaseGateway.set_endpoint_data, Nat.not_le.mpr h, hct, h1] using
          storeGet_storeSet_other store endpoint.path key
            (ParsedPayload.jsonData response.body) hkey
      · by_cases h2 : c = "text/xml" ∨ c = "application/xml"
        · simpa [BaseGateway.set_endpoint_data, Nat.not_le.mpr h, hct, h1, h2] using
            storeGet_storeSet_other store endpoint.path key
              (ParsedPayload.xmlData response.body) hkey
        · by_cases h3 : c = "text/html" <;>
            simpa [BaseGateway.set_endpoint_data, Nat.not_le.mpr h, hct, h1, h2, h3] using
              storeGet_storeSet_other store endpoint.path key
                (ParsedPayload.textData response.body) hkey
  · intro hct
    rcases hct with hct | hct <;>
      simpa [BaseGateway.set_endpoint_data, Nat.not_le.mpr h, hct] using
        storeGet_storeSet_self store endpoint.path (ParsedPayload.jsonData response.body)
  · intro hct
    rcases hct with hct | hct <;>
      simpa [BaseGateway.set_endpoint_data, Nat.not_le.mpr h, hct] using
        storeGet_storeSet_self store endpoint.path (ParsedPayload.xmlData response.body)
  · intro c hct h1 h2 h3
    by_cases h4 : c = "text/html" <;>
      simpa [BaseGateway.set_endpoint_data, Nat.not_le.mpr h, hct, h1, h2, h3, h4] using
        storeGet_storeSet_self store endpoint.path (ParsedPayload.textData response.body)

theorem c8_set_endpoint_data_spec_witness :
    (400 : ℕ) ≤ 500
      ∧ BaseGateway.set_endpoint_data
            [("production.json", ParsedPayload.jsonData "old")]
            (GatewayEndpoint.init "production.json" 0)
            { status_code := 500, content_type := some "application/json", body := "oops" }
          = [("production.json", ParsedPayload.jsonData "old")] :=
  ⟨by norm_num,
    (c8_set_endpoint_data_spec
        [("production.json", ParsedPayload.jsonData "old")]
        (GatewayEndpoint.init "production.json" 0)
        { status_code := 500, content_type := some "application/json", body := "oops" }).1
      (by norm_num)⟩

/-! ## Metered-variant reclassification (gateway.py, EnvoySMetered) -/

/-- One meter record of the ivp/meters payload, restricted to the fields the
probe jsonpath consults: the meter id and the state and measurementType
tags. -/
structure MeterConfig where
  eid : ℕ
  state : String
  measurementType : String

namespace EnvoySMetered

/-- The state EnvoySMetered carries for reclassification: the probes-finished
flag inherited from BaseGateway and the three meter slots the constructor
initialises to None. -/
structure State where
  probes_finished : Bool
  production_meter : PyVal
  net_consumption_meter : PyVal
  total_consumption_meter : PyVal

/-- State of the constructor of EnvoySMetered: meters None, probes not yet
run. -/
def initState : State :=
  { probes_finished := false, production_meter := PyVal.none,
    net_consumption_meter := PyVal.none, total_consumption_meter := PyVal.none }

/-- One probe query of ivp_meters_probe: the jsonpath selecting the eid of
every record whose state tag is enabled and whose measurementType matches,
run through JsonDescriptor.resolve (no match falls back to the default None,
a single match collapses to the scalar eid, several matches stay a list). -/
def probe_meter (data : List MeterConfig) (mt : String) : PyVal :=
  match (data.filter (fun m => m.state == "enabled" && m.measurementType == mt)).map
      (fun m => PyVal.num (m.eid : ℚ)) with
  | [] => PyVal.none
  | [v] => v
  | v :: vs => PyVal.list (v :: vs)

/-- Embedding of EnvoySMetered.ivp_meters_probe: stores the three meter
query results over the cached ivp/meters payload. -/
def ivp_meters_probe (data : List MeterConfig) (st : State) : State :=
  { st with
    production_meter := probe_meter data "production",
    net_consumption_meter := probe_meter data "net-consumption",
    total_consumption_meter := probe_meter data "total-consumption" }

/-- Embedding of BaseGateway.run_probes for the Metered variant, whose only
registered probe is ivp_meters_probe: the probe runs and the probes-finished
flag is set. -/
def run_probes (data : List MeterConfig) (st : State) : State :=
  { ivp_meters_probe data st with probes_finished := true }

/-- The replacement instance EnvoySMeteredCtDisabled is constructed from:
the three meter values found by the probe. -/
structure CtDisabledState where
  production_meter : PyVal
  net_consumption_meter : PyVal
  total_consumption_meter : PyVal

/-- Embedding of EnvoySMetered.get_subclass: no decision before the probes
finished; afterwards the consumption meter is the net meter when truthy,
else the total meter (Python or), and a replacement EnvoySMeteredCtDisabled
is returned exactly when the production meter or the consumption meter is
falsy. -/
def get_subclass (st : State) : Option CtDisabledState :=
  if st.probes_finished then
    let consumption_meter :=
      if st.net_consumption_meter.truthy then st.net_consumption_meter
      else st.total_consumption_meter
    if !st.production_meter.truthy || !consumption_meter.truthy then
      some { production_meter := st.production_meter,
             net_consumption_meter := st.net_consumption_meter,
             total_consumption_meter := st.total_consumption_meter }
    else Option.none
  else Option.none

end EnvoySMetered

/-- The gateway instance held by the Reader once detection picked the
Metered variant: either the EnvoySMetered instance or its substituted
EnvoySMeteredCtDisabled sibling. -/
inductive GatewayVariant where
  | envoySMetered (st : EnvoySMetered.State)
  | envoySMeteredCtDisabled (st : EnvoySMetered.CtDisabledState)

namespace GatewayVariant

/-- get_subclass on the held variant: EnvoySMetered decides as above;
EnvoySMeteredCtDisabled inherits BaseGateway.get_subclass, which always
returns None, so a second substitution can never be offered. -/
def get_subclass : GatewayVariant → Option GatewayVariant
  | envoySMetered st => (EnvoySMetered.get_subclass st).map envoySMeteredCtDisabled
  | envoySMeteredCtDisabled _ => Option.none

/-- run_probes on the held variant: only EnvoySMetered registers a probe;
the CtDisabled sibling (extending EnvoyS) has none, so nothing runs. -/
def run_probes (data : List MeterConfig) : GatewayVariant → GatewayVariant
  | envoySMetered st => envoySMetered (EnvoySMetered.run_probes data st)
  | g => g

end GatewayVariant

/-- Reader-held state driving the one-time substitution. -/
structure GatewayReaderState where
  gateway : GatewayVariant
  initial_update_finished : Bool

/-- Modelled from the spec: the update() loop of the Reader orchestrator.
The orchestrator module of gateway_reader is not among the sources (only its
callers and the gateway classes are), so this follows the spec: update()
fetches the required endpoints, and while the initial update has not
finished it runs the probes, attempts the subclass substitution through
get_subclass (swapping the held reference when a replacement is returned),
refetches for the new instance and then sets initial_update_finished, after
which later passes reuse the now-fixed gateway. The meter payload `data`
stands for the fetched ivp/meters endpoint of this pass. -/
def GatewayReader.update (data : List MeterConfig) (r : GatewayReaderState) :
    GatewayReaderState :=
  if r.initial_update_finished then r
  else
    let g := r.gateway.run_probes data
    { gateway := (g.get_subclass).getD g, initial_update_finished := true }

/-- Helper: with every meter id positive, the truthiness of a probe result
is exactly the existence of an enabled meter of that measurement type. -/
theorem probe_meter_truthy (data : List MeterConfig) (mt : String)
    (hpos : ∀ m ∈ data, 0 < m.eid) :
    (EnvoySMetered.probe_meter data mt).truthy
      = !(data.filter (fun m => m.state == "enabled" && m.measurementType == mt)).isEmpty := by
  rcases hf : data.filter (fun m => m.state == "enabled" && m.measurementType == mt) with
    _ | ⟨a, _ | ⟨b, l⟩⟩
  · simp [EnvoySMetered.probe_meter, hf, PyVal.truthy]
  · have ha : a ∈ data := List.mem_of_mem_filter (hf ▸ List.mem_singleton_self a)
    have : (a.eid : ℚ) ≠ 0 := by
      exact_mod_cast Nat.pos_iff_ne_zero.mp (hpos a ha)
    simp [EnvoySMetered.probe_meter, hf, PyVal.truthy, this]
  · simp [EnvoySMetered.probe_meter, hf, PyVal.truthy]

/-- Helper: once the probes finished, the substitution decision is the
boolean combination of the three meter truthinesses. -/
theorem get_subclass_isSome_eq (st : EnvoySMetered.State) (h : st.probes_finished = true) :
    (EnvoySMetered.get_subclass st).isSome
      = (!st.production_meter.truthy
          || (!st.net_consumption_meter.truthy && !st.total_consumption_meter.truthy)) := by
  simp only [EnvoySMetered.get_subclass, h, if_true]
  cases hn : st.net_consumption_meter.truthy <;>
    cases hp : st.production_meter.truthy <;>
      cases ht : st.total_consumption_meter.truthy <;> simp [hn, hp, ht]

/-- C4. For a Metered gateway whose meter probe ran over a payload with
positive meter ids: before the probes finished get_subclass offers no
replacement; after run_probes it returns an EnvoySMeteredCtDisabled
replacement exactly when the payload holds no enabled production meter or no
enabled consumption meter (neither net-consumption nor total-consumption);
and the Reader update loop substitutes at most once, because after the
first pass the reader state is fixed for every later pass and payload. -/
theorem c4_metered_cts_disabled_reclassification
    (data upd2 : List MeterConfig) (st : EnvoySMetered.State) (r : GatewayReaderState)
    (hpos : ∀ m ∈ data, 0 < m.eid) :
    (st.probes_finished = false → EnvoySMetered.get_subclass st = Option.none)
      ∧ ((EnvoySMetered.get_subclass (EnvoySMetered.run_probes data st)).isSome = true ↔
          (data.filter (fun m => m.state == "enabled" && m.measurementType == "production") = []
            ∨ (data.filter
                  (fun m => m.state == "enabled" && m.measurementType == "net-consumption") = []
                ∧ data.filter
                    (fun m => m.state == "enabled" && m.measurementType == "total-consumption")
                  = [])))
      ∧ GatewayReader.update upd2 (GatewayReader.update data r) = GatewayReader.update data r := by
  refine ⟨fun h => by simp [EnvoySMetered.get_subclass, h], ?_, ?_⟩
  · rw [get_subclass_isSome_eq _ rfl]
    have hp : (EnvoySMetered.run_probes data st).production_meter
        = EnvoySMetered.probe_meter data "production" := rfl
    have hn : (EnvoySMetered.run_probes data st).net_consumption_meter
        = EnvoySMetered.probe_meter data "net-consumption" := rfl
    have ht : (EnvoySMetered.run_probes data st).total_consumption_meter
        = EnvoySMetered.probe_meter data "total-consumption" := rfl
    rw [hp, hn, ht, probe_meter_truthy data "production" hpos,
      probe_meter_truthy data "net-consumption" hpos,
      probe_meter_truthy data "total-consumption" hpos]
    simp [List.isEmpty_iff]
  · by_cases h : r.initial_update_finished <;> simp [GatewayReader.update, h]

/-- A one-meter sample payload: a single enabled production CT and no
consumption CT at all. -/
def sampleMeters : List MeterConfig :=
  [{ eid := 704643328, state := "enabled", measurementType := "production" }]

theorem c4_metered_cts_disabled_reclassification_witness :
    (∀ m ∈ sampleMeters, 0 < m.eid)
      ∧ ((EnvoySMetered.get_subclass
            (EnvoySMetered.run_probes sampleMeters EnvoySMetered.initState)).isSome = true ↔
          (sampleMeters.filter
              (fun m => m.state == "enabled" && m.measurementType == "production") = []
            ∨ (sampleMeters.filter
                  (fun m => m.state == "enabled" && m.measurementType == "net-consumption") = []
                ∧ sampleMeters.filter
                    (fun m => m.state == "enabled" && m.measurementType == "total-consumption")
                  = []))) :=
  ⟨by decide,
    (c4_metered_cts_disabled_reclassification sampleMeters [] EnvoySMetered.initState
        { gateway := GatewayVariant.envoySMetered EnvoySMetered.initState,
          initial_update_finished := false }
        (by decide)).2.1⟩

/-! ## Model detection (spec, with LEGACY_ENVOY_VERSION from const.py) -/

/-- Firmware version as parsed by GatewayInfo from the info endpoint
(leading scheme letter stripped), compared numerically component by
component as AwesomeVersion does for dotted versions. -/
structure FirmwareVersion where
  major : ℕ
  minor : ℕ
  patch : ℕ

/-- Numeric lexicographic comparison of dotted firmware versions. -/
def FirmwareVersion.lt (a b : FirmwareVersion) : Bool :=
  if a.major ≠ b.major then decide (a.major < b.major)
  else if a.minor ≠ b.minor then decide (a.minor < b.minor)
  else decide (a.patch < b.patch)

/-- LEGACY_ENVOY_VERSION from gateway_reader/const.py: AwesomeVersion
3.9.0. -/
def LEGACY_ENVOY_VERSION : FirmwareVersion := { major := 3, minor := 9, patch := 0 }

/-- The imeter flag of the info payload is tri-state: present and true,
present and false, or absent. -/
inductive ImeterFlag where
  | enabled
  | disabled
  | unknown

/-- The gateway classes of gateway.py that detection can select. -/
inductive GatewayClass where
  | envoyLegacy
  | envoy
  | envoyS
  | envoySMetered

/-- Modelled from the spec: the model-selection rule of the Reader
orchestrator (the gateway_reader package entry module is not among the
sources; only its callers, the gateway classes and LEGACY_ENVOY_VERSION
are). Per the spec table: a firmware version below the legacy threshold
3.9.0 selects the Legacy HTML-scraping variant; otherwise imeter true
selects Metered, imeter false selects Standard and an unknown imeter selects
the basic JSON dialect. -/
def detect_model (firmware : FirmwareVersion) (imeter : ImeterFlag) : GatewayClass :=
  if firmware.lt LEGACY_ENVOY_VERSION then GatewayClass.envoyLegacy
  else
    match imeter with
    | ImeterFlag.enabled => GatewayClass.envoySMetered
    | ImeterFlag.disabled => GatewayClass.envoyS
    | ImeterFlag.unknown => GatewayClass.envoy

/-- C5. Whenever the firmware version is below the legacy threshold 3.9.0,
detection selects the Legacy variant, whatever the imeter flag says. -/
theorem c5_legacy_firmware_detection
    (firmware : FirmwareVersion) (imeter : ImeterFlag)
    (h : firmware.lt LEGACY_ENVOY_VERSION = true) :
    detect_model firmware imeter = GatewayClass.envoyLegacy := by
  simp [detect_model, h]

theorem c5_legacy_firmware_detection_witness :
    (FirmwareVersion.lt { major := 3, minor := 7, patch := 0 } LEGACY_ENVOY_VERSION = true)
      ∧ detect_model { major := 3, minor := 7, patch := 0 } ImeterFlag.enabled
        = GatewayClass.envoyLegacy :=
  ⟨by decide,
    c5_legacy_firmware_detection { major := 3, minor := 7, patch := 0 } ImeterFlag.enabled
      (by decide)⟩

/-! ## Transport retry policy (gateway_reader/http.py, async_get and
async_post) -/

/-- What the HTTP client produces on one attempt: a transport-level failure
(httpx.TransportError) or a response carrying a status code. -/
inductive TransportOutcome where
  | transportError
  | response (status : ℕ)

/-- How one call of the transport helpers ends: a returned response, a
raised httpx.HTTPStatusError from raise_for_status, or a propagated
transport error; the raising attempt index is recorded. -/
inductive FetchOutcome where
  | success (status : ℕ)
  | httpStatusError (status : ℕ) (attempt : ℕ)
  | transportFailure (attempt : ℕ)

/-- The fixed backoff delay of http.py: asyncio.sleep(attempt * 0.10). -/
def RETRY_DELAY : ℚ := 1 / 10

/-- The retry loop shared by async_get and async_post, with
raise_for_status = True as at every reader call site. `attempt` is the
1-based loop counter, `remaining` counts the attempts still allowed after
this one (the loop runs for attempt in range(1, retries + 2), so it starts
at retries), and `sleeps` accumulates the backoff delays performed. A
response is returned, or raises the status error on a 4xx/5xx status
without being caught; a transport error on the last attempt propagates,
earlier ones sleep attempt * 0.10 and continue. -/
def runAttempts (outcomes : ℕ → TransportOutcome) :
    ℕ → ℕ → List ℚ → FetchOutcome × List ℚ
  | attempt, remaining, sleeps =>
    match outcomes attempt with
    | TransportOutcome.response s =>
      if 400 ≤ s then (FetchOutcome.httpStatusError s attempt, sleeps)
      else (FetchOutcome.success s, sleeps)
    | TransportOutcome.transportError =>
      match remaining with
      | 0 => (FetchOutcome.transportFailure attempt, sleeps)
      | r + 1 => runAttempts outcomes (attempt + 1) r (sleeps ++ [attempt * RETRY_DELAY])

/-- Embedding of async_get from http.py (retries defaults to 2). -/
def async_get (retries : ℕ) (outcomes : ℕ → TransportOutcome) : FetchOutcome × List ℚ :=
  runAttempts outcomes 1 retries []

/-- Embedding of async_post from http.py: the same loop body over
client.post instead of client.get. -/
def async_post (retries : ℕ) (outcomes : ℕ → TransportOutcome) : FetchOutcome × List ℚ :=
  runAttempts outcomes 1 retries []

/-- Helper: when every attempt in the window hits a transport error, the
loop walks all remaining attempts, sleeping attempt * RETRY_DELAY after each
failed non-final attempt, and propagates the error on the last one. -/
theorem runAttempts_all_transport (outcomes : ℕ → TransportOutcome) :
    ∀ (rem attempt : ℕ) (sleeps : List ℚ),
      (∀ k, attempt ≤ k → k ≤ attempt + rem → outcomes k = TransportOutcome.transportError) →
      runAttempts outcomes attempt rem sleeps
        = (FetchOutcome.transportFailure (attempt + rem),
            sleeps ++ (List.range rem).map (fun i => ((attempt + i : ℕ) : ℚ) * RETRY_DELAY)) := by
  intro rem
  induction rem with
  | zero =>
    intro attempt sleeps h
    have h0 := h attempt le_rfl (by omega)
    simp [runAttempts, h0]
  | succ r ih =>
    intro attempt sleeps h
    have h0 := h attempt le_rfl (by omega)
    rw [runAttempts, h0]
    rw [ih (attempt + 1) (sleeps ++ [(attempt : ℚ) * RETRY_DELAY])
      (fun k hk1 hk2 => h k (by omega) (by omega))]
    have harith : attempt + 1 + r = attempt + (r + 1) := by omega
    have hlist : (sleeps ++ [(attempt : ℚ) * RETRY_DELAY])
          ++ (List.range r).map (fun i => ((attempt + 1 + i : ℕ) : ℚ) * RETRY_DELAY)
        = sleeps ++ (List.range (r + 1)).map (fun i => ((attempt + i : ℕ) : ℚ) * RETRY_DELAY) := by
      rw [List.append_assoc]
      congr 1
      rw [List.range_succ_eq_map, List.map_cons, List.map_map, List.singleton_append]
      refine List.cons_eq_cons.mpr ⟨by push_cast; ring, ?_⟩
      apply List.map_congr_left
      intro i hi
      simp only [Function.comp_apply]
      have harg : attempt + 1 + i = attempt + (i + 1) := by omega
      rw [Nat.succ_eq_add_one, harg]
    rw [harith, hlist]

/-- C10. The transport helpers with retry budget r: a response arriving on
the first attempt with a 4xx/5xx status raises the status error immediately
on that first attempt, with no retry and no backoff sleep; a persistent
transport-level failure is retried r times, sleeping attempt * 0.10 after
each failed attempt (the linear backoff 1x, 2x, ..., rx the fixed delay),
and the transport error propagates on attempt r + 1; async_post runs the
identical loop. -/
theorem c10_transport_retry_policy (retries : ℕ) (outcomes : ℕ → TransportOutcome) (s : ℕ) :
    (outcomes 1 = TransportOutcome.response s → 400 ≤ s →
        async_get retries outcomes = (FetchOutcome.httpStatusError s 1, []))
      ∧ ((∀ a, 1 ≤ a → a ≤ retries + 1 → outcomes a = TransportOutcome.transportError) →
          async_get retries outcomes
            = (FetchOutcome.transportFailure (retries + 1),
                (List.range retries).map (fun i => ((1 + i : ℕ) : ℚ) * RETRY_DELAY)))
      ∧ async_post retries outcomes = async_get retries outcomes := by
  refine ⟨?_, ?_, rfl⟩
  · intro h1 hs
    unfold async_get
    cases retries with
    | zero => simp [runAttempts, h1, hs]
    | succ r => simp [runAttempts, h1, hs]
  · intro h
    unfold async_get
    have hrun := runAttempts_all_transport outcomes retries 1 []
      (fun k hk1 hk2 => h k hk1 (by omega))
    simpa [Nat.add_comm] using hrun

theorem c10_transport_retry_policy_witness :
    (fun _ : ℕ => TransportOutcome.response 404) 1 = TransportOutcome.response 404
      ∧ (400 : ℕ) ≤ 404
      ∧ async_get 2 (fun _ => TransportOutcome.response 404)
        = (FetchOutcome.httpStatusError 404 1, [])
      ∧ async_get 2 (fun _ => TransportOutcome.transportError)
        = (FetchOutcome.transportFailure 3,
            (List.range 2).map (fun i => ((1 + i : ℕ) : ℚ) * RETRY_DELAY)) :=
  ⟨rfl, by norm_num,
    (c10_transport_retry_policy 2 (fun _ => TransportOutcome.response 404) 404).1 rfl
      (by norm_num),
    (c10_transport_retry_policy 2 (fun _ => TransportOutcome.transportError) 404).2.1
      (fun a h1 h2 => rfl)⟩
